import Mathlib

/-!
Verification of the lintLLM Verilog-analysis pipeline.

Shallow embedding of `utils.py` and `lintLLM1.py`: the LLM response
interpreter (`parse_llm_result`), the inference client
(`send_llm_request`), the CSV report writer (`write_to_csv`) and the
batch runner (`process_module_batch` / `main`), together with theorems
about the specified behaviour.

Python regular expressions used by the source are embedded as
deterministic matchers over `List Char`.  Each of the five patterns in
`parse_llm_result` is backtracking-free (every greedy/lazy sub-pattern
admits exactly one viable extent at a given start position), so
`re.search` is faithfully modelled as "try the matcher at every suffix,
left to right, return the first success".  Character classes are the
ASCII classes exercised by the program (`\d`, `\s`, `[A-Z_]`).
-/

/-- ASCII whitespace recognised by Python's `\s` and `str.strip`. -/
def isPyWs (c : Char) : Bool :=
  c = ' ' || c = '\t' || c = '\n' || c = '\r' || c = '\x0b' || c = '\x0c'

/-- Python `str.strip()` (ASCII whitespace). -/
def pyStrip (s : String) : String :=
  String.mk (((s.data.dropWhile isPyWs).reverse.dropWhile isPyWs).reverse)

/-- Match a literal at the head of `s`; on success return the rest. -/
def dropLit : List Char → List Char → Option (List Char)
  | [], s => some s
  | _ :: _, [] => none
  | c :: cs, d :: ds => if c = d then dropLit cs ds else none

/-- Python's `needle in hay` substring test. -/
def containsSub (needle : List Char) : List Char → Bool
  | [] => needle.isEmpty
  | s@(_ :: t) => needle.isPrefixOf s || containsSub needle t

/-- Embedding of `re.search`: run the matcher at every suffix, left to right, and
return the first captured group. -/
def searchFirst (m : List Char → Option String) : List Char → Option String
  | [] => m []
  | s@(_ :: t) =>
    match m s with
    | some g => some g
    | none => searchFirst m t

/-- The captured groups of the matcher at every position of the string,
left to right.  Used to state "the content contains exactly one
occurrence of the marker". -/
def occurrencesOf (m : List Char → Option String) : List Char → List String
  | [] => match m [] with | some g => [g] | none => []
  | s@(_ :: t) =>
    match m s with
    | some g => g :: occurrencesOf m t
    | none => occurrencesOf m t

/-- Python `str.replace(marker, '')` where `marker = c :: ms`:
delete every (non-overlapping, leftmost-first) occurrence. -/
def removeAll (c : Char) (ms : List Char) : List Char → List Char
  | [] => []
  | d :: t =>
    if (c :: ms).isPrefixOf (d :: t) then removeAll c ms (t.drop ms.length)
    else d :: removeAll c ms t
termination_by s => s.length
decreasing_by
  · simp only [List.length_cons, List.length_drop]
    omega
  · simp only [List.length_cons]
    omega

/-- Embedding of `re.sub(r'MARKER:.*?(?=\n|$)', '', s)` for `MARKER: = c :: ms`:
delete every occurrence of the marker together with the rest of its
line (up to, but not including, the next newline). -/
def subMarkerLine (c : Char) (ms : List Char) : List Char → List Char
  | [] => []
  | d :: t =>
    if (c :: ms).isPrefixOf (d :: t) then
      subMarkerLine c ms ((t.drop ms.length).dropWhile (fun x => x ≠ '\n'))
    else d :: subMarkerLine c ms t
termination_by s => s.length
decreasing_by
  · simp only [List.length_cons]
    have h2 : ((t.drop ms.length).dropWhile (fun x => x ≠ '\n')).length ≤ (t.drop ms.length).length :=
      (List.dropWhile_sublist _).length_le
    simp only [List.length_drop] at *
    omega
  · simp only [List.length_cons]
    omega

/-- Embedding of `re.sub(r'\s+', ' ', s)`: collapse every maximal whitespace run to a
single space. -/
def collapseWs : List Char → List Char
  | [] => []
  | d :: t =>
    if isPyWs d then ' ' :: collapseWs (t.dropWhile isPyWs)
    else d :: collapseWs t
termination_by s => s.length
decreasing_by
  · simp only [List.length_cons]
    have : (t.dropWhile isPyWs).length ≤ t.length := (List.dropWhile_sublist _).length_le
    omega
  · simp only [List.length_cons]
    omega

/-- Character class `[0-9\-]` of the `ALL DEFECT LINES` pattern. -/
def isLineListChar (c : Char) : Bool := c.isDigit || c = '-'

/-- Character class `[A-Z_]` of the `DEFECT CATEGORY` pattern. -/
def isCatChar (c : Char) : Bool := ('A' ≤ c && c ≤ 'Z') || c = '_'

/-- Pattern `ALL DEFECT LINES:\s*\[([0-9\-]+)\]` attempted at the
head of `s` (group 1 on success). -/
def matchAllDefectLines (s : List Char) : Option String :=
  match dropLit "ALL DEFECT LINES:".data s with
  | none => none
  | some r =>
    match r.dropWhile isPyWs with
    | '[' :: r2 =>
      match r2.takeWhile isLineListChar, r2.dropWhile isLineListChar with
      | [], _ => none
      | g, ']' :: _ => some (String.mk g)
      | _, _ => none
    | _ => none

/-- Pattern `DEFECT LINE:\s*\[(\d+)\]` attempted at the head of
`s` (group 1 on success). -/
def matchDefectLine (s : List Char) : Option String :=
  match dropLit "DEFECT LINE:".data s with
  | none => none
  | some r =>
    match r.dropWhile isPyWs with
    | '[' :: r2 =>
      match r2.takeWhile Char.isDigit, r2.dropWhile Char.isDigit with
      | [], _ => none
      | g, ']' :: _ => some (String.mk g)
      | _, _ => none
    | _ => none

/-- Pattern `DEFECT CATEGORY:\s*\[?([A-Z_]+)\]?` attempted at the
head of `s` (group 1 on success; the closing bracket is optional and
does not constrain the group). -/
def matchCategory (s : List Char) : Option String :=
  match dropLit "DEFECT CATEGORY:".data s with
  | none => none
  | some r =>
    match r.dropWhile isPyWs with
    | '[' :: r2 =>
      if (r2.takeWhile isCatChar).isEmpty then none
      else some (String.mk (r2.takeWhile isCatChar))
    | r1 =>
      if (r1.takeWhile isCatChar).isEmpty then none
      else some (String.mk (r1.takeWhile isCatChar))

/-- Pattern `DESCRIPTION:\s*(.+?)(?:\n|$)` with `re.DOTALL`
attempted at the head of `s`.  After the maximal whitespace run the
lazy group extends to the next newline or the end of input; when
nothing but whitespace follows the marker, backtracking of `\s*` makes
the group the final whitespace character. -/
def matchDescription (s : List Char) : Option String :=
  match dropLit "DESCRIPTION:".data s with
  | none => none
  | some r =>
    match r.dropWhile isPyWs with
    | [] =>
      match r.takeWhile isPyWs with
      | [] => none
      | w => some (String.mk [w.getLastD ' '])
    | rest => some (String.mk (rest.takeWhile (fun c => c ≠ '\n')))

/-- The Python result dict of `send_llm_request` as consumed by
`parse_llm_result`: an optional `'error'` entry and the optional
`result['message']['content']` string (`none` when the nested shape is
absent, which also covers the falsy empty dict). -/
structure LLMResult where
  error : Option String
  content : Option String
deriving DecidableEq, Repr

/-- Lines of `utils.py`, namely lines 74-95: the extracted `defect_line`.  In the
multiple-defects branch only the `ALL DEFECT LINES` pattern feeds the
result (`main_line` is computed but dead for the return value);
otherwise the single `DEFECT LINE` pattern is used. -/
def extractedLine (cs : List Char) : Option String :=
  if containsSub "MULTIPLE DEFECTS: [YES]".data cs then
    searchFirst matchAllDefectLines cs
  else
    searchFirst matchDefectLine cs

/-- Lines of `utils.py`, namely lines 97-102 and 116-118: the category capture with the
falsy-default to `"UNKNOWN"`. -/
def extractedCategory (cs : List Char) : String :=
  match searchFirst matchCategory cs with
  | some c => if c = "" then "UNKNOWN" else c
  | none => "UNKNOWN"

/-- Lines of `utils.py`, namely lines 110-114: first-sentence / 100-character
truncation of a structured description. -/
def truncateDescription (d : String) : String :=
  if d.data.contains '.' then
    String.mk (d.data.takeWhile (fun c => c ≠ '.')) ++ "."
  else if d.length > 100 then
    String.mk (d.data.take 97) ++ "..."
  else d

/-- Lines of `utils.py`, namely lines 104-114: the structured description (stripped and
truncated), or `""` when the `DESCRIPTION:` pattern finds nothing. -/
def extractedDescription (cs : List Char) : String :=
  match searchFirst matchDescription cs with
  | some raw => truncateDescription (pyStrip raw)
  | none => ""

/-- Apply `re.sub(r'M.*?(?=\n|$)', '', d)` for marker `m` when `m` is
a substring of the original content `cs` (the condition tests the
content, the substitution rewrites the working description). -/
def subIfPresent (m : String) (cs d : List Char) : List Char :=
  if containsSub m.data cs then
    match m.data with
    | [] => d
    | c :: ms => subMarkerLine c ms d
  else d

/-- Delete every occurrence of literal `m`. -/
def removeLit (m : String) (d : List Char) : List Char :=
  match m.data with
  | [] => d
  | c :: ms => removeAll c ms d

/-- Lines of `utils.py`, namely lines 120-143: fallback description derived from the
content when no structured description was found — strip the marker
lines, collapse whitespace, truncate to 100 characters. -/
def fallbackDescription (cs : List Char) : String :=
  let d := removeLit "RESULT: [YES]" cs
  let d := removeLit "RESULT: [NO]" d
  let d := subIfPresent "MULTIPLE DEFECTS:" cs d
  let d := subIfPresent "ALL DEFECT LINES:" cs d
  let d := subIfPresent "MAIN DEFECT LINE:" cs d
  let d := subIfPresent "DEFECT LINE:" cs d
  let d := subIfPresent "DEFECT CATEGORY:" cs d
  let d := pyStrip (String.mk (collapseWs d))
  if d.length > 100 then String.mk (d.data.take 97) ++ "..." else d

/-- Lines of `utils.py`, namely lines 70-145: interpretation of a well-shaped response
content. -/
def parseContent (cs : List Char) : Option String × String × String :=
  if containsSub "RESULT: [NO]".data cs then (none, "NONE", "No defects found")
  else
    let description := extractedDescription cs
    (extractedLine cs, extractedCategory cs,
      if description = "" then fallbackDescription cs else description)

/-- Lines of `utils.py`, namely lines 54-145: `parse_llm_result`.  The Python signature
is `Tuple[Optional[str], Optional[str], str]` but every return site
yields a non-`None` category, so the category component is a plain
`String` here. -/
def parse_llm_result (result : LLMResult) : Option String × String × String :=
  match result.error with
  | some e => (none, "ERROR", e)
  | none =>
    match result.content with
    | none => (none, "UNKNOWN", "Unknown result format")
    | some content => parseContent content.data

/-!
Inference client (`lintLLM1.py` lines 20-54)

The HTTP transport is the environment: a function from the request
payload to an outcome — a response with a status code and an
already-JSON-decoded body, a `requests` exception, or any other
exception.
-/

/-- The JSON payload built by `create_llm_request_data`. -/
structure RequestData where
  model : String
  systemContent : String
  userContent : String
  max_tokens : Nat
  temperature : Nat
  stream : Bool
deriving DecidableEq, Repr

/-- Outcome of the `requests.post` call: an HTTP response, a
`requests.exceptions.RequestException`, or any other exception. -/
inductive RequestOutcome where
  | httpResponse (statusCode : Nat) (body : LLMResult)
  | requestException (msg : String)
  | unexpectedException (msg : String)
deriving DecidableEq, Repr

namespace Config

def OLLAMA_API : String := "http://localhost:11434/api/chat"

def MODEL_NAME : String := "qwen3:14b"

def MAX_TOKENS : Nat := 2048

def TEMPERATURE : Nat := 0

def TIMEOUT : Nat := 30

def MODULE_START_INDEX : Nat := 1

def MODULE_END_INDEX : Nat := 31  -- exclusive

def PROJECT_PREFIXES : List String := ["simple_", "medium_", "complex_"]

def FOLDER_NAMES : List String := ["simple", "medium", "complex"]

def BASE_BENCHMARK_PATH : String := "Static-Verilog-Analysis/Benchmark"

end Config

/-- Lines of `lintLLM1.py`, namely lines 20-32: `create_llm_request_data`. -/
def create_llm_request_data (context : String) : RequestData :=
  { model := Config.MODEL_NAME
    systemContent := "You are a verilog code defect checker and are able to follow the defined rules."
    userContent := context ++ " /no_think"
    max_tokens := Config.MAX_TOKENS
    temperature := Config.TEMPERATURE
    stream := false }

/-- Lines of `lintLLM1.py`, namely lines 35-54: `send_llm_request` over a transport
oracle `net`.  Only a 200 status returns the decoded body; any other
status and both exception paths return an `error` dict, so the
function never raises. -/
def send_llm_request (net : RequestData → RequestOutcome) (context : String) : LLMResult :=
  match net (create_llm_request_data context) with
  | .httpResponse code body =>
    if code = 200 then body
    else ⟨some ("Request failed with status code: " ++ toString code), none⟩
  | .requestException e => ⟨some ("Network request failed: " ++ e), none⟩
  | .unexpectedException e => ⟨some ("Unexpected error: " ++ e), none⟩

/-!
Prompt builder (`lintLLM1.py` lines 57-187)
-/

/-- Lines of `lintLLM1.py`, namely lines 61-112: the fixed rules document up to the
interpolated reserved-word list. -/
def promptRulesPre : String :=
  "Please check this <code> step by step using the following steps and rules.\n        step 1: Identify punctuation marks\n            (1) chinese punctuation cannot appear in the code.\n        step 2: Identify module\n            (1) Module must be wrapped by 'module-endmodule'.\n        step 3: Identify statements\n            (1) For statements in the module header, end with (','), and do not punctuate the last statement.\n            (2) For statements outside the module header, end with (';').\n        step 4: Identify variables\n            (1) For variables defined in the module header, the port type ('input', 'output', 'inout') must be defined.\n                a. For 'input' type variables, they must be assigned to other variables.\n                b. For 'output' type variables, they need to be assigned values by other variables.\n                c. For 'inout' type variables, they can be assigned to other variables or assigned to other variables.\n            (2) For variables not defined in the module header, the port type ('input', 'output', 'inout') cannot be defined.\n            (3) For each variable, the data type ('wire', 'reg') must be defined.\n                a. For variables of type 'wire', to be used in combinatorial logic.\n                b. For variables of type 'reg', to be used in temporal logic.\n                c. The default data type for variables is 'wire'.\n            (4) For each variable, declare the bit-width ([MSB:LSB], which satisfies MSB>LSB), the default bit-width is 1, which can be omitted.\n                a. Variable of bit width 1 ([0:0]) cannot be declared.\n                b. For variables with a bit-width greater than 1, use the process to match the bit-width of the variable involved in the operation, neither exceeding the index nor leaving the bit-width free.\n            (5) For assigning Values to Variable.\n                a. To comply with the bit width requirements, distinguishing between binary, octal and hexadecimal mechanisms; each bit of octal represents three bits of binary, and each bit of hexadecimal represents four bits of binary.\n                b. Cannot have an indefinite state ('x','X') or a highly resistive state ('z','Z').\n            (6) Each variable is to be used.\n        step 5: Identify 'always' block\n            (1) The 'always' block should be wrapped with 'begin-end'.\n            (2) Identify 'always' types.\n                a. Temporal logic.\n                b. Combinational logic.\n            (3) Identify sensitive lists.\n                a. Sensitive list of temporal logic.\n                    ① Each signal in the sensitive list should have a 'posedge' edge or a 'negedge' edge.\n                    ② For the judgment signal in the if condition, the original signal is used for the 'posedge' edge and the negative signal is used for the 'negedge' edge.\n                    ③ Use ('or',',') to connect multiple signals in the sensitive list.\n                    ④ All signals used in the sensitive list should be listed.\n                b. Sensitive list of combinatorial logic.\n                    ① Signals in the sensitive list cannot have a 'posedge' or 'negedge' edge.\n                    ② Multiple signals in the sensitive list are connected by ('or',',').\n                    ③ All signals used should be listed in the sensitive list or replaced by ('*').\n                c. Cannot mix signals with edges and signals without edges.\n                d. Cannot include extraneous signals.\n            (4) Identify the mode of assignment\n                a. Non-blocking assignment ('<=') is used in temporal logic.\n                b. The use of blocking assignment methods ('=') in combinational logic.\n                c. Cannot mix non-blocking assignment methods ('<=') and blocking methods ('=').\n        step 6: Identify 'begin-end' block\n            (1) 'begin' and 'end' always occur in pairs.\n            (2) For statements that execute one statement a time, 'begin-end' can be omitted.\n            (3) For statements that execute more than one statement at a time, 'begin-end' cannot be omitted.\n        step 7: Identify reserved words\n            (1) verilog includes reserved words: "

/-- Lines of `lintLLM1.py`, namely lines 112-179: the fixed rules document after the
interpolated reserved-word list. -/
def promptRulesPost : String :=
  "\n            (2) Cannot use reserved words as variable or module names.\n            (3) Cannot use reserved words that do not exist in verilog.\n        step 8: Identify race or hazard condition\n            (1) In temporal logic, a variable cannot be read immediately after it is assigned a value in the same 'always' block.\n            (2) In temporal logic, it is not possible to assign a value to the same variable in the same sensitive list of 'always' block.\n        step 9: Identify 'case' structure\n            (1) The 'case' structure should have a 'default' statement.\n            (2) The 'case' structure should include all possible branches.\n            (3) The 'case' structure should be wrapped in a 'case-endcase'.\n        step 10: Identify instantiated modules\n            (1) Module port instantiation methods.\n                a. Connected by position.\n                b. Connected by name.\n                c. Cannot mix the two methods.\n            (2) The number of modules instantiated should be the same as the number required in the code.\n            (3) The port type ('input', 'output', 'inout'), data type ('wire', 'reg') and data bit width of the module instantiation should be the same.\n            (4) Each port should be connected when instantiated, not floating.\n        step 11: Identify operator\n            (1) For the bitwise operators ('&', '|', '^', '~'), which are used for operations on multi-bit width variables.\n            (2) For logical operators ('&&', '||', '!'), which are used for one-bit width variables.\n\n        DEFECT CATEGORIES:\n        When you find a defect, classify it into one of these specific categories:\n\n        Simple Level Defects:\n        1. SYNTAX_STRUCTURE - Basic syntax errors, missing semicolons, punctuation issues\n        2. SIGNAL_USAGE - Incorrect signal assignments, unused signals, undefined signals\n        3. SENSITIVITY_LIST - Issues with always block sensitivity lists, missing signals\n        4. RESERVED_WORDS - Using Verilog reserved words incorrectly\n        5. RACE_HAZARD - Race conditions, hazard conditions in temporal logic\n\n        Medium Level Defects:\n        6. PORT_TYPE - Incorrect port declarations (input/output/inout), port connection issues\n        7. OPERATORS - Incorrect operator usage (bitwise vs logical), operator precedence issues\n        8. MODULE_INSTANCES - Module instantiation errors, port mapping issues\n\n        Complex Level Defects:\n        9. LOGIC_SYNTHESIS - Logic that cannot be properly synthesized, complex logic errors\n        10. COMBINATIONAL_SEQUENTIAL - Mixing combinational and sequential logic incorrectly\n        11. BIT_WIDTH_USAGE - Bit width mismatches, incorrect bit width declarations\n\n        MULTIPLE DEFECT ANALYSIS:\n        If multiple defects are detected, perform priority analysis:\n        step 1: Number all defects sequentially as D1, D2, D3, etc.\n        step 2: For each defect, simulate fixing it and count remaining defects (N1, N2, N3...)\n        step 3: The defect with the smallest remaining defect count is the main defect\n        step 4: Report the main defect line and all defect lines\n\n        OUTPUT FORMAT:\n        If NO defects found:\n        RESULT: [NO]\n\n        If SINGLE defect found:\n        RESULT: [YES]\n        DEFECT LINE: [line number]\n        DEFECT CATEGORY: [category name]\n        DESCRIPTION: [brief overview]\n\n        If MULTIPLE defects found:\n        RESULT: [YES]\n        MULTIPLE DEFECTS: [YES]\n        ALL DEFECT LINES: [line1-line2-line3]\n        MAIN DEFECT LINE: [primary line number]\n        DEFECT CATEGORY: [category of main defect]\n        DESCRIPTION: [brief overview of main defect]\n\n        Keep descriptions concise - just overview, not detailed explanations."

/-- Lines of `lintLLM1.py`, namely lines 57-187: `build_analysis_prompt`.  The reserved
word list (loaded once at startup, empty string on a missing file) is
a parameter. -/
def build_analysis_prompt (reservedWords : String) (module_name : String)
    (verilog_code_lines : List String) : String :=
  let prompt_intro :=
    "The following <code> is the Verilog code for the module named <" ++ module_name ++ ">."
  let prompt_rules := promptRulesPre ++ reservedWords ++ promptRulesPost
  let numbered := (verilog_code_lines.enum.map
    (fun p => toString (p.1 + 1) ++ ": " ++ p.2)).foldl (· ++ ·) ""
  prompt_intro ++ "\n" ++ numbered ++ "\n" ++ prompt_rules

/-!
File access and module analysis (`utils.py` 39-41, 181-183;
`lintLLM1.py` 190-218)

The file system is the environment: a map from a path to the list of
lines `readlines` would return, or `none` when the file does not
exist.
-/

/-- Model of `os.path.join(a, b)` for the POSIX cases the program exercises:
an absolute second component wins; otherwise a separator is inserted
unless the first component is empty or already ends in one. -/
def joinPath (a b : String) : String :=
  if b.data.head? = some '/' then b
  else if a = "" || a.data.getLast? = some '/' then a ++ b
  else a ++ "/" ++ b

/-- Lines of `utils.py`, namely lines 181-183: `build_verilog_path`. -/
def build_verilog_path (base_path module_name : String) : String :=
  joinPath base_path (module_name ++ ".v")

/-- Lines of `utils.py`, namely lines 39-41: `validate_file_path` over the file-system
oracle. -/
def validate_file_path (fs : String → Option (List String)) (file_path : String) : Bool :=
  (fs file_path).isSome

/-- Lines of `lintLLM1.py`, namely lines 190-218: `analyze_verilog_module`.  A missing
file yields the `File not found` error dict; otherwise the file is
read and the prompt sent to the LLM.  (Exceptions during a successful
read are not modelled: the oracle either provides the lines or the
file is absent.) -/
def analyze_verilog_module (fs : String → Option (List String))
    (net : RequestData → RequestOutcome) (reservedWords : String)
    (module_name base_path : String) : LLMResult :=
  let verilog_path := build_verilog_path base_path module_name
  if validate_file_path fs verilog_path = false then
    ⟨some ("File not found: " ++ verilog_path), none⟩
  else
    send_llm_request net (build_analysis_prompt reservedWords module_name
      ((fs verilog_path).getD []))

/-!
CSV report (`utils.py` lines 148-178)

The report file is threaded explicitly: `none` models "the file does
not exist", `some rows` models its current rows.
-/

/-- The fixed five-column header. -/
def csvHeader : List String :=
  ["Level", "File_Name", "Defect_Line", "Defect_Type", "Defect_Description"]

/-- Line 175 of `utils.py`: `defect_line if defect_line else 'N/A'`
(Python truthiness: `None` and the empty string both fall back). -/
def defectLineCell : Option String → String
  | some s => if s = "" then "N/A" else s
  | none => "N/A"

/-- One data row of the report. -/
def csvRow (level file_name : String) (defect_line : Option String)
    (defect_type defect_description : String) : List String :=
  [level, file_name, defectLineCell defect_line, defect_type, defect_description]

/-- Lines of `utils.py`, namely lines 148-178: `write_to_csv` — append one row, writing
the header first when the file does not yet exist. -/
def write_to_csv (file : Option (List (List String))) (level file_name : String)
    (defect_line : Option String) (defect_type defect_description : String) :
    List (List String) :=
  (match file with
   | none => [csvHeader]
   | some rows => rows) ++
    [csvRow level file_name defect_line defect_type defect_description]

/-!
Batch runner (`lintLLM1.py` lines 221-298)
-/

/-- Python `str.rstrip('_')`: strip all trailing underscores
(`lintLLM1.py` line 236). -/
def rstripUnderscore (s : String) : String :=
  String.mk (s.data.reverse.dropWhile (fun c => c = '_')).reverse

/-- The loop body of `process_module_batch` (`lintLLM1.py` lines
239-258), iterated over the remaining module indices with the report
file threaded through: analyze the module, interpret the result,
append one row. -/
def processIndices (fs : String → Option (List String))
    (net : RequestData → RequestOutcome) (reservedWords : String)
    (modPre base_path : String) :
    List Nat → Option (List (List String)) → Option (List (List String))
  | [], file => file
  | k :: rest, file =>
    let module_name := modPre ++ toString k
    let file_name := module_name ++ ".v"
    let result := analyze_verilog_module fs net reservedWords module_name base_path
    let p := parse_llm_result result
    processIndices fs net reservedWords modPre base_path rest
      (some (write_to_csv file (rstripUnderscore modPre) file_name p.1 p.2.1 p.2.2))

/-- Lines of `lintLLM1.py`, namely lines 221-266: `process_module_batch` — iterate the
indices of Python `range(start_idx, end_idx)`. -/
def process_module_batch (fs : String → Option (List String))
    (net : RequestData → RequestOutcome) (reservedWords : String)
    (start_idx end_idx : Nat) (modPre base_path : String)
    (file : Option (List (List String))) : Option (List (List String)) :=
  processIndices fs net reservedWords modPre base_path
    (List.range' start_idx (end_idx - start_idx)) file

/-- The row written for one module: what the loop body appends. -/
def moduleRow (fs : String → Option (List String))
    (net : RequestData → RequestOutcome) (reservedWords : String)
    (modPre base_path : String) (k : Nat) : List String :=
  let module_name := modPre ++ toString k
  let p := parse_llm_result (analyze_verilog_module fs net reservedWords module_name base_path)
  csvRow (rstripUnderscore modPre) (module_name ++ ".v") p.1 p.2.1 p.2.2

/-- Lines of `lintLLM1.py`, namely lines 269-298: `main` — remove any pre-existing
`results.csv` (hence the discarded `oldReport` argument) and run the
three category batches over the configured index range. -/
def runMain (fs : String → Option (List String))
    (net : RequestData → RequestOutcome) (reservedWords : String)
    (oldReport : Option (List (List String))) : Option (List (List String)) :=
  let file : Option (List (List String)) := none  -- os.remove(csv_filename)
  (Config.PROJECT_PREFIXES.zip Config.FOLDER_NAMES).foldl
    (fun f pf =>
      process_module_batch fs net reservedWords
        Config.MODULE_START_INDEX Config.MODULE_END_INDEX pf.1
        (Config.BASE_BENCHMARK_PATH ++ "/" ++ pf.2) f)
    file

/-- The 90 data rows a full run produces, category by category, index
ascending. -/
def mainRows (fs : String → Option (List String))
    (net : RequestData → RequestOutcome) (reservedWords : String) :
    List (List String) :=
  (Config.PROJECT_PREFIXES.zip Config.FOLDER_NAMES).flatMap
    (fun pf =>
      (List.range' Config.MODULE_START_INDEX
        (Config.MODULE_END_INDEX - Config.MODULE_START_INDEX)).map
        (moduleRow fs net reservedWords pf.1 (Config.BASE_BENCHMARK_PATH ++ "/" ++ pf.2)))

/-!
Helper lemmas.
-/

/-- The head of the occurrence list is the group `re.search` returns. -/
theorem searchFirst_eq_head_of_occ (m : List Char → Option String) :
    ∀ (cs : List Char) (g : String) (gs : List String),
      occurrencesOf m cs = g :: gs → searchFirst m cs = some g := by
  intro cs
  induction cs with
  | nil =>
    intro g gs h
    cases hm : m [] with
    | none => simp [occurrencesOf, hm] at h
    | some g0 =>
      have hg : g0 = g ∧ gs = [] := by simpa [occurrencesOf, hm] using h
      simp [searchFirst, hm, hg.1]
  | cons c t ih =>
    intro g gs h
    cases hm : m (c :: t) with
    | none =>
      have h' : occurrencesOf m t = g :: gs := by simpa [occurrencesOf, hm] using h
      simpa [searchFirst, hm] using ih g gs h'
    | some g0 =>
      have hg : g0 = g ∧ occurrencesOf m t = gs := by simpa [occurrencesOf, hm] using h
      simp [searchFirst, hm, hg.1]

/-- An empty occurrence list means `re.search` finds nothing. -/
theorem searchFirst_eq_none_of_occ_nil (m : List Char → Option String) :
    ∀ (cs : List Char), occurrencesOf m cs = [] → searchFirst m cs = none := by
  intro cs
  induction cs with
  | nil =>
    intro h
    cases hm : m [] with
    | none => simp [searchFirst, hm]
    | some g0 => simp [occurrencesOf, hm] at h
  | cons c t ih =>
    intro h
    cases hm : m (c :: t) with
    | none =>
      have h' : occurrencesOf m t = [] := by simpa [occurrencesOf, hm] using h
      simpa [searchFirst, hm] using ih h'
    | some g0 => simp [occurrencesOf, hm] at h

/-- A successful search produces a group that the matcher produced at
some suffix. -/
theorem searchFirst_some_exists (m : List Char → Option String) :
    ∀ (cs : List Char) (g : String), searchFirst m cs = some g →
      ∃ s, m s = some g := by
  intro cs
  induction cs with
  | nil => intro g h; exact ⟨[], h⟩
  | cons c t ih =>
    intro g h
    cases hm : m (c :: t) with
    | none =>
      have h' : searchFirst m t = some g := by simpa [searchFirst, hm] using h
      exact ih g h'
    | some g0 =>
      have hg : g0 = g := by simpa [searchFirst, hm] using h
      exact ⟨c :: t, by rw [hm, hg]⟩

/-- A guarded capture `if l.isEmpty then none else some (String.mk l)`
never returns the empty string. -/
theorem guardedCapture_ne_empty (l : List Char) (g : String)
    (h : (if l.isEmpty then none else some (String.mk l)) = some g) : g ≠ "" := by
  split at h
  · simp at h
  · rename_i hne
    have hg : g = String.mk l := by simpa using h.symm
    subst hg
    intro hc
    have hd := congrArg String.data hc
    simp at hd
    simp [hd] at hne

/-- The category matcher never captures an empty token
(`[A-Z_]+` requires at least one character). -/
theorem matchCategory_ne_empty (s : List Char) (g : String)
    (h : matchCategory s = some g) : g ≠ "" := by
  unfold matchCategory at h
  split at h
  · exact absurd h (by simp)
  · split at h
    · exact guardedCapture_ne_empty _ _ h
    · exact guardedCapture_ne_empty _ _ h

/-- Unfold `parse_llm_result` on a well-shaped response. -/
theorem parse_llm_result_content (r : LLMResult) (content : String)
    (he : r.error = none) (hc : r.content = some content) :
    parse_llm_result r = parseContent content.data := by
  unfold parse_llm_result
  rw [he, hc]

/-- Unfold `parse_llm_result` on an error dict. -/
theorem parse_llm_result_error (r : LLMResult) (e : String)
    (he : r.error = some e) : parse_llm_result r = (none, "ERROR", e) := by
  unfold parse_llm_result
  rw [he]

/-- Line component of `parseContent` when the no-defect marker is
absent. -/
theorem parseContent_fst (cs : List Char)
    (hno : containsSub "RESULT: [NO]".data cs = false) :
    (parseContent cs).1 = extractedLine cs := by
  simp [parseContent, hno]

/-- Category component of `parseContent` when the no-defect marker is
absent. -/
theorem parseContent_cat (cs : List Char)
    (hno : containsSub "RESULT: [NO]".data cs = false) :
    (parseContent cs).2.1 = extractedCategory cs := by
  simp [parseContent, hno]

/-- Description component of `parseContent` when the no-defect marker
is absent. -/
theorem parseContent_desc (cs : List Char)
    (hno : containsSub "RESULT: [NO]".data cs = false) :
    (parseContent cs).2.2 =
      (if extractedDescription cs = "" then fallbackDescription cs
       else extractedDescription cs) := by
  simp [parseContent, hno]

/-- A string literal appended behind `String.mk` is the `String.mk` of
the appended character lists. -/
theorem mk_append_mk (l m : List Char) :
    String.mk l ++ String.mk m = String.mk (l ++ m) := rfl

/-!
The claims.
-/

/-- C9: for every well-formed response whose content contains the
literal marker `RESULT: [NO]`, the interpreter returns
`(none, "NONE", "No defects found")`; the check precedes all
defect-marker extraction, so the conclusion holds whatever other
markers the content carries. -/
theorem claim_C9 (r : LLMResult) (content : String)
    (herr : r.error = none) (hcont : r.content = some content)
    (hno : containsSub "RESULT: [NO]".data content.data = true) :
    parse_llm_result r = (none, "NONE", "No defects found") := by
  rw [parse_llm_result_content r content herr hcont]
  simp [parseContent, hno]

/-- Witness for C9, at a content that also carries defect markers. -/
theorem claim_C9_witness :
    parse_llm_result ⟨none, some "RESULT: [NO]\nDEFECT LINE: [3]\nDEFECT CATEGORY: [PORT_TYPE]"⟩ =
      (none, "NONE", "No defects found") :=
  claim_C9 _ _ rfl rfl (by decide)

/-- C6: every error value is interpreted as a Defect Record with
`defect_line = none`, `category = "ERROR"` and the error message as
description; in particular a transport failure yields the non-empty
message `Network request failed: <msg>`.  (Both `send_llm_request` and
`parse_llm_result` are total functions of the outcome, so no exception
escapes the module boundary.) -/
theorem claim_C6 :
    (∀ (r : LLMResult) (e : String), r.error = some e →
      parse_llm_result r = (none, "ERROR", e)) ∧
    (∀ (net : RequestData → RequestOutcome) (ctx m : String),
      net (create_llm_request_data ctx) = .requestException m →
      parse_llm_result (send_llm_request net ctx) =
        (none, "ERROR", "Network request failed: " ++ m) ∧
      ("Network request failed: " ++ m) ≠ "") := by
  constructor
  · intro r e he
    exact parse_llm_result_error r e he
  · intro net ctx m hnet
    constructor
    · simp [send_llm_request, hnet, parse_llm_result]
    · intro hc
      have h2 : ("Network request failed: " ++ m).length = 0 := by rw [hc]; rfl
      rw [String.length_append] at h2
      have h3 : ("Network request failed: " : String).length = 24 := rfl
      omega

/-- Witness for C6: an explicit error dict, and a connection-refused
transport failure. -/
theorem claim_C6_witness :
    parse_llm_result ⟨some "boom", none⟩ = (none, "ERROR", "boom") ∧
    parse_llm_result
        (send_llm_request (fun _ => .requestException "Connection refused") "ctx") =
      (none, "ERROR", "Network request failed: Connection refused") :=
  ⟨claim_C6.1 _ _ rfl, (claim_C6.2 (fun _ => .requestException "Connection refused") "ctx" _ rfl).1⟩

/-- C2 as stated is false: the client treats only status 200 as
success, not every 2xx status.  At status 204 (a 2xx code) with a
well-formed body, the client returns a server-failure error value
instead of the parsed body. -/
theorem claim_C2_counterexample :
    send_llm_request (fun _ => .httpResponse 204 ⟨none, some "RESULT: [NO]"⟩) "ctx" =
        ⟨some "Request failed with status code: 204", none⟩ ∧
      (⟨some "Request failed with status code: 204", none⟩ : LLMResult) ≠
        ⟨none, some "RESULT: [NO]"⟩ := by
  constructor
  · rfl
  · decide

/-- C2 amended: `send_llm_request` returns the parsed body exactly when
the status code is 200; every other status yields an error value whose
message carries the status code, and both exception paths yield tagged
error values (the function is total, so no exception escapes). -/
theorem claim_C2 (net : RequestData → RequestOutcome) (ctx : String)
    (code : Nat) (body : LLMResult) (m1 m2 : String) :
    (net (create_llm_request_data ctx) = .httpResponse code body →
      (code = 200 → send_llm_request net ctx = body) ∧
      (code ≠ 200 → send_llm_request net ctx =
        ⟨some ("Request failed with status code: " ++ toString code), none⟩)) ∧
    (net (create_llm_request_data ctx) = .requestException m1 →
      send_llm_request net ctx = ⟨some ("Network request failed: " ++ m1), none⟩) ∧
    (net (create_llm_request_data ctx) = .unexpectedException m2 →
      send_llm_request net ctx = ⟨some ("Unexpected error: " ++ m2), none⟩) := by
  refine ⟨fun hnet => ⟨fun h200 => ?_, fun hne => ?_⟩, fun hnet => ?_, fun hnet => ?_⟩
  · simp [send_llm_request, hnet, h200]
  · simp [send_llm_request, hnet, hne]
  · simp [send_llm_request, hnet]
  · simp [send_llm_request, hnet]

/-- Witness for C2 (amended): a 404 response yields the tagged error
value. -/
theorem claim_C2_witness :
    send_llm_request (fun _ => .httpResponse 404 ⟨none, some "ok"⟩) "x" =
      ⟨some "Request failed with status code: 404", none⟩ :=
  ((claim_C2 (fun _ => .httpResponse 404 ⟨none, some "ok"⟩) "x" 404
    ⟨none, some "ok"⟩ "" "").1 rfl).2 (by decide)

/-- C10: when the content carries the multiple-defects marker but no
substring matches the `ALL DEFECT LINES: [digits-and-hyphens]` pattern,
the returned `defect_line` is `none` — the single-defect extraction is
never consulted in the multiple-defects branch, even though a
`DEFECT LINE: [n]` marker is present. -/
theorem claim_C10 (r : LLMResult) (content : String)
    (herr : r.error = none) (hcont : r.content = some content)
    (hmulti : containsSub "MULTIPLE DEFECTS: [YES]".data content.data = true)
    (hall : searchFirst matchAllDefectLines content.data = none)
    (hline : occurrencesOf matchDefectLine content.data ≠ []) :
    (parse_llm_result r).1 = none := by
  rw [parse_llm_result_content r content herr hcont]
  by_cases hno : containsSub "RESULT: [NO]".data content.data = true
  · simp [parseContent, hno]
  · rw [parseContent_fst content.data (by simpa using hno)]
    simp [extractedLine, hmulti, hall]

/-- Witness for C10. -/
theorem claim_C10_witness :
    (parse_llm_result ⟨none, some "MULTIPLE DEFECTS: [YES]\nDEFECT LINE: [5]"⟩).1 = none :=
  claim_C10 _ _ rfl rfl (by decide) (by decide) (by decide)

/-- C4: when the content carries the multiple-defects marker, exactly
one occurrence of the `ALL DEFECT LINES: [<digits-and-hyphens>]`
pattern with group `s`, and no no-defect marker, the returned
`defect_line` is the hyphen-joined list `s` verbatim. -/
theorem claim_C4 (r : LLMResult) (content : String) (s : String)
    (herr : r.error = none) (hcont : r.content = some content)
    (hno : containsSub "RESULT: [NO]".data content.data = false)
    (hmulti : containsSub "MULTIPLE DEFECTS: [YES]".data content.data = true)
    (hall : occurrencesOf matchAllDefectLines content.data = [s]) :
    (parse_llm_result r).1 = some s := by
  rw [parse_llm_result_content r content herr hcont]
  rw [parseContent_fst content.data hno]
  simp [extractedLine, hmulti,
    searchFirst_eq_head_of_occ matchAllDefectLines content.data s [] hall]

/-- Witness for C4: the returned line list is `3-7-12`, not the main
defect line `7`. -/
theorem claim_C4_witness :
    (parse_llm_result ⟨none, some
      "MULTIPLE DEFECTS: [YES]\nALL DEFECT LINES: [3-7-12]\nMAIN DEFECT LINE: [7]"⟩).1 =
      some "3-7-12" :=
  claim_C4 _ _ _ rfl rfl (by decide) (by decide) (by decide)

/-- C3: for a content with exactly one occurrence of the
`DEFECT LINE: [<n>]` pattern (group `n`, a digit string), exactly one
occurrence of the `DEFECT CATEGORY` pattern (group `cat`), and neither
the no-defect nor the multiple-defects marker, the interpreter returns
`defect_line = n` and `category = cat`. -/
theorem claim_C3 (r : LLMResult) (content : String) (n cat : String)
    (herr : r.error = none) (hcont : r.content = some content)
    (hno : containsSub "RESULT: [NO]".data content.data = false)
    (hmulti : containsSub "MULTIPLE DEFECTS: [YES]".data content.data = false)
    (hline : occurrencesOf matchDefectLine content.data = [n])
    (hcat : occurrencesOf matchCategory content.data = [cat]) :
    (parse_llm_result r).1 = some n ∧ (parse_llm_result r).2.1 = cat := by
  rw [parse_llm_result_content r content herr hcont]
  constructor
  · rw [parseContent_fst content.data hno]
    simp [extractedLine, hmulti,
      searchFirst_eq_head_of_occ matchDefectLine content.data n [] hline]
  · rw [parseContent_cat content.data hno]
    have hs : searchFirst matchCategory content.data = some cat :=
      searchFirst_eq_head_of_occ matchCategory content.data cat [] hcat
    obtain ⟨sfx, hsfx⟩ := searchFirst_some_exists matchCategory content.data cat hs
    have hne : cat ≠ "" := matchCategory_ne_empty sfx cat hsfx
    simp [extractedCategory, hs, hne]

/-- Witness for C3, on the spec's end-to-end scenario 2 response. -/
theorem claim_C3_witness :
    (parse_llm_result ⟨none, some
      "RESULT: [YES]\nDEFECT LINE: [12]\nDEFECT CATEGORY: [PORT_TYPE]\nDESCRIPTION: Output port unassigned."⟩).1 =
        some "12" ∧
    (parse_llm_result ⟨none, some
      "RESULT: [YES]\nDEFECT LINE: [12]\nDEFECT CATEGORY: [PORT_TYPE]\nDESCRIPTION: Output port unassigned."⟩).2.1 =
        "PORT_TYPE" :=
  claim_C3 _ _ _ _ rfl rfl (by decide) (by decide) (by decide) (by decide)

/-- A string ending in a period is never empty. -/
theorem append_dot_ne_empty (a : String) : a ++ "." ≠ "" := by
  intro h
  have h2 := congrArg String.length h
  rw [String.length_append] at h2
  have h3 : ("." : String).length = 1 := rfl
  have h4 : ("" : String).length = 0 := rfl
  omega

/-- A string ending in an ellipsis is never empty. -/
theorem append_ellipsis_ne_empty (a : String) : a ++ "..." ≠ "" := by
  intro h
  have h2 := congrArg String.length h
  rw [String.length_append] at h2
  have h3 : ("..." : String).length = 3 := rfl
  have h4 : ("" : String).length = 0 := rfl
  omega

/-- C7 as stated is false: the category token class is `[A-Z_]+`, not
all letters.  Here a lowercase token follows the `DEFECT CATEGORY:`
marker inside brackets, yet the returned category is `"UNKNOWN"`, not
`"abc"`. -/
theorem claim_C7_counterexample :
    (parse_llm_result ⟨none, some "DEFECT CATEGORY: [abc]"⟩).2.1 = "UNKNOWN" ∧
      ("UNKNOWN" : String) ≠ "abc" := by
  constructor
  · rfl
  · decide

/-- C7 amended: for every well-formed, non-error response content not
containing the no-defect marker, the returned category is the first
captured token of **uppercase** letters and underscores following a
`DEFECT CATEGORY:` marker (optionally bracketed), and `"UNKNOWN"` when
no position of the content matches that pattern. -/
theorem claim_C7 (r : LLMResult) (content : String)
    (herr : r.error = none) (hcont : r.content = some content)
    (hno : containsSub "RESULT: [NO]".data content.data = false) :
    (∀ (cat : String) (rest : List String),
      occurrencesOf matchCategory content.data = cat :: rest →
      (parse_llm_result r).2.1 = cat) ∧
    (occurrencesOf matchCategory content.data = [] →
      (parse_llm_result r).2.1 = "UNKNOWN") := by
  rw [parse_llm_result_content r content herr hcont]
  constructor
  · intro cat rest hocc
    rw [parseContent_cat content.data hno]
    have hs : searchFirst matchCategory content.data = some cat :=
      searchFirst_eq_head_of_occ matchCategory content.data cat rest hocc
    obtain ⟨sfx, hsfx⟩ := searchFirst_some_exists matchCategory content.data cat hs
    have hne : cat ≠ "" := matchCategory_ne_empty sfx cat hsfx
    simp [extractedCategory, hs, hne]
  · intro hocc
    rw [parseContent_cat content.data hno]
    have hs : searchFirst matchCategory content.data = none :=
      searchFirst_eq_none_of_occ_nil matchCategory content.data hocc
    simp [extractedCategory, hs]

/-- Witness for C7 (amended). -/
theorem claim_C7_witness :
    (parse_llm_result ⟨none, some "DEFECT CATEGORY: [PORT_TYPE]"⟩).2.1 = "PORT_TYPE" :=
  (claim_C7 _ _ rfl rfl (by decide)).1 "PORT_TYPE" [] (by decide)

/-- C1 as stated is false: a structured description containing a
period is cut at the first period regardless of length, so the
description field can exceed 100 characters.  With a 110-character
first sentence the stored description has length 111. -/
theorem claim_C1_counterexample :
    100 < ((parse_llm_result ⟨none, some
      ("DESCRIPTION: " ++ String.mk (List.replicate 110 'a') ++ ". tail")⟩).2.2).length := by
  decide

/-- C1 amended: an extracted description containing a sentence
terminator is truncated at the first `'.'` — a result that may exceed
100 characters; only a description with no `'.'` and more than 100
characters is hard-truncated to 97 characters plus a 3-character
ellipsis, total length exactly 100. -/
theorem claim_C1 (r : LLMResult) (content raw : String)
    (herr : r.error = none) (hcont : r.content = some content)
    (hno : containsSub "RESULT: [NO]".data content.data = false)
    (hdesc : searchFirst matchDescription content.data = some raw) :
    ((pyStrip raw).data.contains '.' = true →
      (parse_llm_result r).2.2 =
        String.mk ((pyStrip raw).data.takeWhile (fun c => c ≠ '.')) ++ ".") ∧
    ((pyStrip raw).data.contains '.' = false → 100 < (pyStrip raw).length →
      (parse_llm_result r).2.2 = String.mk ((pyStrip raw).data.take 97) ++ "..." ∧
      ((parse_llm_result r).2.2).length = 100) := by
  rw [parse_llm_result_content r content herr hcont]
  rw [parseContent_desc content.data hno]
  have hext : extractedDescription content.data = truncateDescription (pyStrip raw) := by
    simp [extractedDescription, hdesc]
  rw [hext]
  constructor
  · intro hdot
    have hdot' : '.' ∈ (pyStrip raw).data := by simpa using hdot
    have htr : truncateDescription (pyStrip raw) =
        String.mk ((pyStrip raw).data.takeWhile (fun c => c ≠ '.')) ++ "." := by
      simp [truncateDescription, hdot']
    rw [htr]
    rw [if_neg (append_dot_ne_empty _)]
  · intro hdot hlen
    have hdot' : '.' ∉ (pyStrip raw).data := by simpa using hdot
    have htr : truncateDescription (pyStrip raw) =
        String.mk ((pyStrip raw).data.take 97) ++ "..." := by
      simp [truncateDescription, hdot', hlen]
    rw [htr]
    rw [if_neg (append_ellipsis_ne_empty _)]
    refine ⟨rfl, ?_⟩
    rw [String.length_append]
    have h1 : (String.mk ((pyStrip raw).data.take 97)).length =
        ((pyStrip raw).data.take 97).length := rfl
    have h2 : ((pyStrip raw).data.take 97).length = min 97 (pyStrip raw).data.length :=
      List.length_take 97 (pyStrip raw).data
    have h3 : (pyStrip raw).length = (pyStrip raw).data.length := rfl
    have h4 : ("..." : String).length = 3 := rfl
    omega

/-- Witness for C1 (amended): a 110-character description with no
period comes out as 97 characters plus an ellipsis, total 100. -/
theorem claim_C1_witness :
    (parse_llm_result ⟨none, some
        ("DESCRIPTION: " ++ String.mk (List.replicate 110 'a'))⟩).2.2 =
      String.mk ((pyStrip (String.mk (List.replicate 110 'a'))).data.take 97) ++ "..." ∧
    ((parse_llm_result ⟨none, some
        ("DESCRIPTION: " ++ String.mk (List.replicate 110 'a'))⟩).2.2).length = 100 :=
  (claim_C1 ⟨none, some ("DESCRIPTION: " ++ String.mk (List.replicate 110 'a'))⟩
    ("DESCRIPTION: " ++ String.mk (List.replicate 110 'a'))
    (String.mk (List.replicate 110 'a'))
    rfl rfl (by decide) (by decide)).2 (by decide) (by decide)

/-- C8: when a module source file does not exist, the loop body
appends exactly one row `(<level>, <file>.v, "N/A", "ERROR",
"File not found: <path>")` to the report and the run proceeds with the
remaining modules. -/
theorem claim_C8 (fs : String → Option (List String))
    (net : RequestData → RequestOutcome) (rwords : String)
    (modPre base_path : String) (k : Nat) (rest : List Nat)
    (file : Option (List (List String)))
    (hmiss : fs (build_verilog_path base_path (modPre ++ toString k)) = none) :
    processIndices fs net rwords modPre base_path (k :: rest) file =
      processIndices fs net rwords modPre base_path rest
        (some ((match file with
                | none => [csvHeader]
                | some rows => rows) ++
          [[rstripUnderscore modPre, modPre ++ toString k ++ ".v", "N/A", "ERROR",
            "File not found: " ++ build_verilog_path base_path (modPre ++ toString k)]])) := by
  have hp : parse_llm_result
      (analyze_verilog_module fs net rwords (modPre ++ toString k) base_path) =
      (none, "ERROR",
        "File not found: " ++ build_verilog_path base_path (modPre ++ toString k)) := by
    simp [analyze_verilog_module, validate_file_path, hmiss, parse_llm_result]
  simp only [processIndices, hp]
  simp [write_to_csv, csvRow, defectLineCell]

/-- Witness for C8. -/
theorem claim_C8_witness :
    processIndices (fun _ => none) (fun _ => .requestException "x") "" "simple_" "base" [1] none =
      some [csvHeader,
        ["simple", "simple_1.v", "N/A", "ERROR", "File not found: base/simple_1.v"]] := by
  rw [claim_C8 (fun _ => none) (fun _ => .requestException "x") "" "simple_" "base" 1 [] none rfl]
  rfl

/-- Threading an existing report through the module loop appends one
row per index, in order. -/
theorem processIndices_some (fs : String → Option (List String))
    (net : RequestData → RequestOutcome) (rwords modPre base_path : String) :
    ∀ (idxs : List Nat) (rows : List (List String)),
      processIndices fs net rwords modPre base_path idxs (some rows) =
        some (rows ++ idxs.map (moduleRow fs net rwords modPre base_path)) := by
  intro idxs
  induction idxs with
  | nil => intro rows; simp [processIndices]
  | cons k rest ih =>
    intro rows
    simp only [processIndices]
    rw [ih]
    simp [write_to_csv, moduleRow, List.append_assoc]

/-- Starting from a non-existent report file, the first write creates
the header and every index contributes exactly one row, in order. -/
theorem processIndices_none (fs : String → Option (List String))
    (net : RequestData → RequestOutcome) (rwords modPre base_path : String)
    (k : Nat) (rest : List Nat) :
    processIndices fs net rwords modPre base_path (k :: rest) none =
      some (csvHeader ::
        (k :: rest).map (moduleRow fs net rwords modPre base_path)) := by
  simp only [processIndices]
  rw [processIndices_some]
  simp [write_to_csv, moduleRow]

/-- C5: a full run produces exactly one header row followed by one row
per configured module — 90 data rows for the 3 categories × 30 indices
— in processing order (category by category, index ascending),
whatever report file existed before the run (its contents are
discarded at start, not appended to). -/
theorem claim_C5 (fs : String → Option (List String))
    (net : RequestData → RequestOutcome) (rwords : String)
    (oldReport : Option (List (List String))) :
    runMain fs net rwords oldReport = some (csvHeader :: mainRows fs net rwords) ∧
    (mainRows fs net rwords).length = 90 := by
  have hrange : List.range' Config.MODULE_START_INDEX
      (Config.MODULE_END_INDEX - Config.MODULE_START_INDEX) = 1 :: List.range' 2 29 := rfl
  have h1 : ∀ (pre base : String),
      process_module_batch fs net rwords Config.MODULE_START_INDEX
        Config.MODULE_END_INDEX pre base none =
      some (csvHeader :: (1 :: List.range' 2 29).map (moduleRow fs net rwords pre base)) := by
    intro pre base
    unfold process_module_batch
    rw [hrange]
    exact processIndices_none fs net rwords pre base 1 (List.range' 2 29)
  have h2 : ∀ (pre base : String) (rows : List (List String)),
      process_module_batch fs net rwords Config.MODULE_START_INDEX
        Config.MODULE_END_INDEX pre base (some rows) =
      some (rows ++ (1 :: List.range' 2 29).map (moduleRow fs net rwords pre base)) := by
    intro pre base rows
    unfold process_module_batch
    rw [hrange]
    exact processIndices_some fs net rwords pre base (1 :: List.range' 2 29) rows
  have hzip : Config.PROJECT_PREFIXES.zip Config.FOLDER_NAMES =
      [("simple_", "simple"), ("medium_", "medium"), ("complex_", "complex")] := rfl
  have hmain : mainRows fs net rwords =
      (1 :: List.range' 2 29).map (moduleRow fs net rwords "simple_"
        (Config.BASE_BENCHMARK_PATH ++ "/" ++ "simple")) ++
      ((1 :: List.range' 2 29).map (moduleRow fs net rwords "medium_"
        (Config.BASE_BENCHMARK_PATH ++ "/" ++ "medium")) ++
      (1 :: List.range' 2 29).map (moduleRow fs net rwords "complex_"
        (Config.BASE_BENCHMARK_PATH ++ "/" ++ "complex"))) := by
    rw [mainRows, hzip, hrange]
    simp
  constructor
  · rw [runMain, hzip]
    simp only [List.foldl]
    rw [h1, h2, h2, hmain]
    simp
  · rw [hmain]
    simp [List.length_range']
